import Mathlib

/-!
Shallow embedding of the oso message pipeline core: the two-pass classifier
decision tree (src/models/leeloo_dallas.py), the claim/lock work queue and the
partial-update store operations (src/db/func.py), and the stage cycle release
behavior (src/models/agent.py), together with theorems checking the
specification claims against these definitions.
-/

namespace Oso

/-- Enumeration of message classifications from src/db/struct.py. Each Python
enum member carries a value string that happens to coincide with the member
name; both projections are defined below as the source uses both. -/
inductive MsgClassification
  | instruction
  | inquiry
  | spam
  | other
  | story
  | banned
  | illegal
  | safe
  | interesting
  | boring
  deriving DecidableEq, Repr

/-- Python `member.name` of a MsgClassification member. -/
def MsgClassification.name : MsgClassification → String
  | .instruction => "instruction"
  | .inquiry => "inquiry"
  | .spam => "spam"
  | .other => "other"
  | .story => "story"
  | .banned => "banned"
  | .illegal => "illegal"
  | .safe => "safe"
  | .interesting => "interesting"
  | .boring => "boring"

/-- Python `member.value` of a MsgClassification member (the first component
of the tuple in src/db/struct.py). -/
def MsgClassification.value : MsgClassification → String
  | .instruction => "instruction"
  | .inquiry => "inquiry"
  | .spam => "spam"
  | .other => "other"
  | .story => "story"
  | .banned => "banned"
  | .illegal => "illegal"
  | .safe => "safe"
  | .interesting => "interesting"
  | .boring => "boring"

/-- Message source enumeration from src/db/struct.py. -/
inductive MsgSource
  | RedditMessage
  | RedditComment
  | RedditChat
  | TwitterMessage
  | TwitterComment
  | Gmail
  deriving DecidableEq, Repr

/-!
Classifier: src/models/leeloo_dallas.py. Each sub-classifier call
(classify_text) returns the chosen label string, or none when the call
failed. asyncio.gather returns results positionally in task order, so a
pass is modelled by the list of its sub-classifier outcomes in task order.
multi_pass compares raw string outputs against enum member names.
-/

/-- Pass-1 decision tree of multi_pass (src/models/leeloo_dallas.py lines
88 to 113): results arrive in task order banned, illegal, interesting;
illegal wins, else banned, else boring, else story; any failed
sub-classification makes the pass undetermined. -/
def pass_1 (results1 : List (Option String)) : Option MsgClassification :=
  if none ∈ results1 then none
  else if some MsgClassification.illegal.name ∈ results1 then some MsgClassification.illegal
  else if some MsgClassification.banned.name ∈ results1 then some MsgClassification.banned
  else if some MsgClassification.boring.name ∈ results1 then some MsgClassification.boring
  else some MsgClassification.story

/-- Two-pass decision tree of multi_pass (src/models/leeloo_dallas.py lines
59 to 113). Pass-0 results arrive in task order instruction, inquiry, spam,
story; spam wins, else instruction, else inquiry, else the story branch
falls through to pass 1, else other; any failed sub-classification makes
the result undetermined (none). -/
def multi_pass (results0 results1 : List (Option String)) : Option MsgClassification :=
  if none ∈ results0 then none
  else if some MsgClassification.spam.name ∈ results0 then some MsgClassification.spam
  else if some MsgClassification.instruction.name ∈ results0 then some MsgClassification.instruction
  else if some MsgClassification.inquiry.name ∈ results0 then some MsgClassification.inquiry
  else if some MsgClassification.story.name ∈ results0 then pass_1 results1
  else some MsgClassification.other

/-- Pass-0 result list when all four sub-classifications succeed: each
sub-classifier chooses between its target label value and the value of
`other`, in the task order of the pass_0 list in the source. -/
def pass0_results (i q s t : Bool) : List (Option String) :=
  [some (cond i MsgClassification.instruction.value MsgClassification.other.value),
   some (cond q MsgClassification.inquiry.value MsgClassification.other.value),
   some (cond s MsgClassification.spam.value MsgClassification.other.value),
   some (cond t MsgClassification.story.value MsgClassification.other.value)]

/-- Pass-1 result list when all three sub-classifications succeed, in the
task order of the pass_1 list in the source: banned or safe, illegal or
safe, interesting or boring. -/
def pass1_results (b il inter : Bool) : List (Option String) :=
  [some (cond b MsgClassification.banned.value MsgClassification.safe.value),
   some (cond il MsgClassification.illegal.value MsgClassification.safe.value),
   some (cond inter MsgClassification.interesting.value MsgClassification.boring.value)]

/-- The pass-0 decision depends on the result list only through membership,
hence it is invariant under any reordering of the sub-classifier results. -/
theorem multi_pass_congr_perm (r0 r0x r1 : List (Option String)) (h : r0.Perm r0x) :
    multi_pass r0 r1 = multi_pass r0x r1 := by
  simp only [multi_pass, h.mem_iff]

/-- Claim C5: when all four pass-0 sub-classifications succeed, multi_pass
resolves by first-match precedence spam, then instruction, then inquiry,
then story (proceeding to pass 1), else other; in particular the outputs
instruction no, inquiry no, spam yes, story no yield spam, and the decision
is invariant under any reordering of the four results, so it does not
depend on the completion order of the concurrent calls. -/
theorem pass0_precedence (i q s t : Bool) (r1 r0x : List (Option String))
    (hperm : (pass0_results i q s t).Perm r0x) :
    multi_pass r0x r1 = multi_pass (pass0_results i q s t) r1
  ∧ multi_pass (pass0_results i q s t) r1
      = (if s then some MsgClassification.spam
         else if i then some MsgClassification.instruction
         else if q then some MsgClassification.inquiry
         else if t then pass_1 r1
         else some MsgClassification.other)
  ∧ multi_pass (pass0_results false false true false) r1 = some MsgClassification.spam := by
  refine ⟨(multi_pass_congr_perm _ _ _ hperm).symm, ?_, ?_⟩
  · cases i <;> cases q <;> cases s <;> cases t <;>
      simp [multi_pass, pass0_results, MsgClassification.name, MsgClassification.value]
  · simp [multi_pass, pass0_results, MsgClassification.name, MsgClassification.value]

/-- Witness for claim C5 at a concrete input: the fixture spam yes with the
result list delivered in a permuted order still resolves to spam. -/
theorem pass0_precedence_witness :
    multi_pass [some ("spam"), some ("other"), some ("other"), some ("other")] []
      = multi_pass (pass0_results false false true false) []
  ∧ multi_pass (pass0_results false false true false) [] = some MsgClassification.spam := by
  have h := pass0_precedence false false true false []
      [some ("spam"), some ("other"), some ("other"), some ("other")] (by decide)
  exact ⟨h.1, h.2.2⟩

/-- Claim C6: for a text that reaches pass 1 and whose three pass-1
sub-classifications all succeed, multi_pass returns illegal if present,
else banned if present, else boring if present, else story; in particular
banned yes, illegal no, interesting no yields banned. -/
theorem pass1_precedence (r0 : List (Option String)) (b il inter : Bool)
    (h0 : none ∉ r0)
    (hs : some MsgClassification.spam.name ∉ r0)
    (hi : some MsgClassification.instruction.name ∉ r0)
    (hq : some MsgClassification.inquiry.name ∉ r0)
    (ht : some MsgClassification.story.name ∈ r0) :
    multi_pass r0 (pass1_results b il inter)
      = (if il then some MsgClassification.illegal
         else if b then some MsgClassification.banned
         else if inter then some MsgClassification.story
         else some MsgClassification.boring)
  ∧ multi_pass r0 (pass1_results true false false) = some MsgClassification.banned := by
  have hpass : ∀ r1, multi_pass r0 r1 = pass_1 r1 := by
    intro r1
    simp [multi_pass, h0, hs, hi, hq, ht]
  refine ⟨?_, ?_⟩
  · rw [hpass]
    cases b <;> cases il <;> cases inter <;>
      simp [pass_1, pass1_results, MsgClassification.name, MsgClassification.value]
  · rw [hpass]
    simp [pass_1, pass1_results, MsgClassification.name, MsgClassification.value]

/-- Witness for claim C6 at a concrete input: a pass-0 story outcome with
pass-1 outputs banned yes, illegal no, interesting no yields banned. -/
theorem pass1_precedence_witness :
    multi_pass [some ("other"), some ("other"), some ("other"), some ("story")]
      (pass1_results true false false) = some MsgClassification.banned :=
  (pass1_precedence [some ("other"), some ("other"), some ("other"), some ("story")]
    true false false (by decide) (by decide) (by decide) (by decide) (by decide)).2

/-- Claim C7: if any sub-classifier call of the executed pass fails (its
result is none), multi_pass returns undetermined (none) for the whole text,
in pass 0 as well as in pass 1; the decision tree consumes exactly one
result per sub-classification, so no failed call is retried. -/
theorem classifier_failure_undetermined (r0 r1 : List (Option String)) :
    (none ∈ r0 → multi_pass r0 r1 = none)
  ∧ (none ∉ r0 → some MsgClassification.story.name ∈ r0 →
     some MsgClassification.spam.name ∉ r0 → some MsgClassification.instruction.name ∉ r0 →
     some MsgClassification.inquiry.name ∉ r0 → none ∈ r1 → multi_pass r0 r1 = none) := by
  constructor
  · intro h
    simp [multi_pass, h]
  · intro h0 ht hs hi hq h1
    simp [multi_pass, pass_1, h0, hs, hi, hq, ht, h1]

/-- Witness for claim C7 at concrete inputs: one failed call in pass 0, and
one failed call in pass 1 after a story outcome, each give none. -/
theorem classifier_failure_undetermined_witness :
    multi_pass [none, some ("spam"), some ("other"), some ("other")] [] = none
  ∧ multi_pass [some ("other"), some ("other"), some ("other"), some ("story")]
      [none, some ("safe"), some ("boring")] = none := by
  refine ⟨(classifier_failure_undetermined _ _).1 (by decide), ?_⟩
  exact (classifier_failure_undetermined _ _).2 (by decide) (by decide) (by decide)
    (by decide) (by decide) (by decide)

/-!
Data model: src/db/struct.py AppMsg (the pydantic message record, every
field optional except that rows always carry msg_id) and the persisted row
of the oso.msg table, which has the same columns plus locked_at. The meta
dict is modelled as a list of key and value pairs, images as lists of byte
values.
-/

/-- Message record from src/db/struct.py; pydantic defaults every field
other than msg_id to None. -/
structure AppMsg where
  msg_id : Option String
  created_at : Option Int := none
  source : Option MsgSource := none
  sender : Option String := none
  receiver : Option String := none
  is_receiver_me : Option Bool := none
  subject : Option String := none
  body : Option String := none
  meta : Option (List (String × String)) := none
  classification : Option MsgClassification := none
  reply_body : Option String := none
  reply_id : Option String := none
  summary : Option String := none
  images : Option (List (List Nat)) := none
  post_id : Option String := none
  deriving DecidableEq, Repr

/-- Stored row of the oso.msg table: the columns of section 3 of the spec
keyed by msg_id, plus the lock column locked_at. -/
structure Row where
  msg_id : String
  created_at : Option Int := none
  source : Option MsgSource := none
  sender : Option String := none
  receiver : Option String := none
  is_receiver_me : Option Bool := none
  subject : Option String := none
  body : Option String := none
  meta : Option (List (String × String)) := none
  classification : Option MsgClassification := none
  reply_body : Option String := none
  reply_id : Option String := none
  summary : Option String := none
  images : Option (List (List Nat)) := none
  post_id : Option String := none
  locked_at : Option Int := none
  deriving DecidableEq, Repr

/-- The shared message table, the only shared mutable state. -/
abbrev Db := List Row

/-!
Query validation: validate_query in src/db/func.py lowercases and strips
the query string and then checks the three regexes, raising ValueError on
the first failure. The regex checks are embedded character by character:
a word character is alphanumeric or underscore, matching the \w class.
-/

/-- A character of the regex \w class. -/
def isWordChar (c : Char) : Bool := c.isAlphanum || c = '_'

/-- A word boundary follows here: end of input or a non-word character. -/
def boundaryAfter : List Char → Bool
  | [] => true
  | c :: _ => !(isWordChar c)

/-- Matches the anchored pattern of re.search with caret, with, word
boundary: the input starts with the four letters of with followed by a
boundary. -/
def startsWithWith : List Char → Bool
  | 'w' :: 'i' :: 't' :: 'h' :: rest => boundaryAfter rest
  | _ => false

/-- Matches the letters a and s followed by a word boundary at the head of
the input. -/
def matchAsBoundary : List Char → Bool
  | 'a' :: 's' :: rest => boundaryAfter rest
  | _ => false

/-- Matches one or more whitespace characters and then as with a trailing
word boundary at the head of the input. -/
def matchSpacesThenAs : List Char → Bool
  | [] => false
  | c :: rest => c.isWhitespace && (matchAsBoundary rest || matchSpacesThenAs rest)

/-- Matches msgs, whitespace, as with a trailing boundary at the head of
the input. -/
def matchMsgsHere : List Char → Bool
  | 'm' :: 's' :: 'g' :: 's' :: rest => matchSpacesThenAs rest
  | _ => false

/-- Searches the input for msgs preceded by a word boundary and followed by
whitespace and as with a trailing boundary; the flag records whether the
previous character was a word character. -/
def searchMsgsAs : Bool → List Char → Bool
  | _, [] => false
  | prevWord, c :: rest =>
      (!prevWord && matchMsgsHere (c :: rest)) || searchMsgsAs (isWordChar c) rest

/-- Lowercasing of the query string, character by character. -/
def lowerChars (s : String) : List Char := s.data.map Char.toLower

/-- Python strip: drop whitespace from both ends. -/
def stripChars (l : List Char) : List Char :=
  ((l.dropWhile Char.isWhitespace).reverse.dropWhile Char.isWhitespace).reverse

/-- The regex dollar anchor check: the stripped query ends with a closing
parenthesis. -/
def endsWithParen (l : List Char) : Bool := l.getLast? == some ')'

/-- validate_query from src/db/func.py lines 16 to 25: lowercase and strip
the query, then require it to begin with the word with, to contain msgs
followed by as, and to end with a closing parenthesis; the first violated
check raises ValueError, modelled as the error branch. The ok branch
carries the lowercased stripped query that the wrapper goes on to use. -/
def validate_query (query_string : String) : Except String (List Char) :=
  let q := stripChars (lowerChars query_string)
  if !(startsWithWith q) then Except.error ("Query must begin with with")
  else if !(searchMsgsAs false q) then Except.error ("Query must contain msgs as")
  else if !(endsWithParen q) then Except.error ("Query must end with a closing parenthesis")
  else Except.ok q

/-!
The atomic locking statement built by with_pipe_lock (src/db/func.py lines
42 to 57): the candidate query yields the msgs rows; the update CTE sets
locked_at to the current timestamp on every oso.msg row whose msg_id joins
a candidate and whose locked_at is null or strictly below the timestamp
minus the lock timeout, returning the msg_id values it actually modified;
the final select returns the candidate rows whose msg_id was modified.
The whole statement runs atomically against one snapshot of the table.
-/

/-- The lock condition of the update CTE: locked_at is null or strictly
older than the threshold now minus lock_timeout_seconds. -/
def lock_eligible (threshold : Int) (r : Row) : Bool :=
  match r.locked_at with
  | none => true
  | some t => decide (t < threshold)

/-- A row is hit by the update CTE when its msg_id joins the candidate ids
and the lock condition holds. -/
def hit_row (candIds : List String) (threshold : Int) (r : Row) : Bool :=
  decide (r.msg_id ∈ candIds) && lock_eligible threshold r

/-- One atomic execution of the locking statement: candidates of type a
with an id projection, the resulting table, and the returned candidate
rows (those whose row was actually locked in this statement). -/
def run_locking_query {α : Type} (idOf : α → String) (cands : List α)
    (lock_timeout_seconds now : Int) (db : Db) : Db × List α :=
  (db.map (fun r =>
      if hit_row (cands.map idOf) (now - lock_timeout_seconds) r then
        { r with locked_at := some now }
      else r),
   cands.filter (fun c =>
      decide (idOf c ∈ (db.filter (hit_row (cands.map idOf) (now - lock_timeout_seconds))).map Row.msg_id)))

/-- A claim call as performed by a function wrapped by with_pipe_lock: the
candidate predicate is evaluated against the same table snapshot that the
atomic locking statement updates. -/
def with_pipe_lock {α : Type} (idOf : α → String) (pred : Db → List α)
    (lock_timeout_seconds now : Int) (db : Db) : Db × List α :=
  run_locking_query idOf (pred db) lock_timeout_seconds now db

/-- The wrapper body of with_pipe_lock (src/db/func.py lines 37 to 66):
validate_query runs before the try block, so its ValueError propagates to
the caller; the fetch of the locking statement runs inside the try block,
so a store failure there (modelled by the store_fails flag) is caught and
the call returns the empty list with the table unchanged. -/
def with_pipe_lock_wrapper {α : Type} (idOf : α → String) (query_string : String)
    (pred : Db → List α) (store_fails : Bool)
    (lock_timeout_seconds now : Int) (db : Db) : Except String (Db × List α) :=
  match validate_query query_string with
  | Except.error e => Except.error e
  | Except.ok _ =>
      if store_fails then Except.ok (db, [])
      else Except.ok (with_pipe_lock idOf pred lock_timeout_seconds now db)

/-!
The classify stage candidate predicate: the SQL of
get_locked_msgs_to_classify (src/db/func.py lines 244 to 270). SQL
comparisons against null are unknown and exclude the row; x not in a
subquery is true only when x is non-null, the subquery result contains no
null and does not contain x. The epoch cutoff of the lookback interval is
passed in as a parameter.
-/

/-- SQL condition cutoff < created_at; a null created_at excludes the
row. -/
def created_after (cutoff : Int) (r : Row) : Bool :=
  match r.created_at with
  | some t => decide (cutoff < t)
  | none => false

/-- SQL condition is_receiver_me; null excludes the row. -/
def receiver_me (r : Row) : Bool := r.is_receiver_me == some true

/-- SQL condition classification = any of the given set; a null
classification excludes the row. -/
def classification_in (s : List MsgClassification) (r : Row) : Bool :=
  match r.classification with
  | some c => decide (c ∈ s)
  | none => false

/-- The ex cohort of get_locked_msgs_to_classify: the distinct senders of
recent inbound rows whose classification lies in the exclusion set. -/
def ex_cohort_senders (ex : List MsgClassification) (cutoff : Int) (db : Db) :
    List (Option String) :=
  ((db.filter (fun r => created_after cutoff r && receiver_me r && classification_in ex r)).map
    Row.sender).dedup

/-- SQL three-valued semantics of x not in a set of possibly null values:
true only for a non-null x when the set has no null member and does not
contain x. -/
def sql_not_in (x : Option String) (s : List (Option String)) : Bool :=
  match x with
  | none => false
  | some v => !(decide (none ∈ s)) && !(decide (some v ∈ s))

/-- The column subset selected by the msgs CTE of
get_locked_msgs_to_classify: msg_id and body only. -/
structure ClassifyCand where
  msg_id : String
  body : Option String
  deriving DecidableEq, Repr

/-- The msgs CTE of get_locked_msgs_to_classify: recent inbound rows with
no classification whose sender avoids the ex cohort, ordered by created_at,
limited, and projected to msg_id and body. -/
def classify_candidates (ex : List MsgClassification) (lim : Nat) (cutoff : Int)
    (db : Db) : List ClassifyCand :=
  let exs := ex_cohort_senders ex cutoff db
  let eligible := db.filter (fun r =>
    created_after cutoff r && receiver_me r && r.classification.isNone &&
    sql_not_in r.sender exs)
  ((eligible.insertionSort (fun a b => a.created_at.getD 0 ≤ b.created_at.getD 0)).take lim).map
    (fun r => { msg_id := r.msg_id, body := r.body })

/-- Construction of the returned message objects in the wrapper: AppMsg is
built from exactly the columns of the fetched row, msg_id and body for the
classify stage; every other field keeps its pydantic default None. -/
def classifyCandToMsg (c : ClassifyCand) : AppMsg :=
  { msg_id := some c.msg_id, body := c.body }

/-- get_locked_msgs_to_classify: the classify candidate predicate run
through the atomic locking statement, with the locked candidate rows turned
into AppMsg values. -/
def get_locked_msgs_to_classify (ex : List MsgClassification) (lim : Nat)
    (cutoff lock_timeout_seconds now : Int) (db : Db) : Db × List AppMsg :=
  ((run_locking_query ClassifyCand.msg_id (classify_candidates ex lim cutoff db)
      lock_timeout_seconds now db).1,
   (run_locking_query ClassifyCand.msg_id (classify_candidates ex lim cutoff db)
      lock_timeout_seconds now db).2.map classifyCandToMsg)

/-- A candidate predicate returning every row projected to msg_id and body;
used to instantiate the generic claim theorems at concrete inputs. -/
def allCandidates (db : Db) : List ClassifyCand :=
  db.map (fun r => { msg_id := r.msg_id, body := r.body })

/-!
Partial update: _build_update_query and update_msgs (src/db/func.py lines
186 to 242). The update statement sets exactly the non-None non-identity
fields of the message on the row whose msg_id matches; a message with no
such field is skipped. model_dump with exclude_none never emits a null, so
an absent field can never overwrite a stored value.
-/

/-- One set clause of the dynamic update: a present field overwrites the
stored value, an absent field produces no clause and leaves it. -/
def setIfPresent {α : Type} (new old : Option α) : Option α :=
  match new with
  | some v => some v
  | none => old

/-- Whether the dynamic update statement has any set clause: some field
besides msg_id is present on the message. -/
def has_update_fields (m : AppMsg) : Bool :=
  m.created_at.isSome || m.source.isSome || m.sender.isSome || m.receiver.isSome ||
  m.is_receiver_me.isSome || m.subject.isSome || m.body.isSome || m.meta.isSome ||
  m.classification.isSome || m.reply_body.isSome || m.reply_id.isSome ||
  m.summary.isSome || m.images.isSome || m.post_id.isSome

/-- Effect of the dynamic update statement on the matched row: each present
field of the message overwrites the column, each absent field leaves it;
msg_id and locked_at are never touched. -/
def apply_update (m : AppMsg) (r : Row) : Row :=
  { r with
    created_at := setIfPresent m.created_at r.created_at
    source := setIfPresent m.source r.source
    sender := setIfPresent m.sender r.sender
    receiver := setIfPresent m.receiver r.receiver
    is_receiver_me := setIfPresent m.is_receiver_me r.is_receiver_me
    subject := setIfPresent m.subject r.subject
    body := setIfPresent m.body r.body
    meta := setIfPresent m.meta r.meta
    classification := setIfPresent m.classification r.classification
    reply_body := setIfPresent m.reply_body r.reply_body
    reply_id := setIfPresent m.reply_id r.reply_id
    summary := setIfPresent m.summary r.summary
    images := setIfPresent m.images r.images
    post_id := setIfPresent m.post_id r.post_id }

/-- One message of update_msgs: when the message has update fields, run the
update statement against the rows whose msg_id equals the message identity;
otherwise the message is skipped with a warning. -/
def update_one (db : Db) (m : AppMsg) : Db :=
  if has_update_fields m then
    db.map (fun r => if m.msg_id == some r.msg_id then apply_update m r else r)
  else db

/-- update_msgs from src/db/func.py lines 219 to 242: the messages are
updated one after the other inside one transaction. -/
def update_msgs (db : Db) (msgs : List AppMsg) : Db := msgs.foldl update_one db

/-!
Stage cycles: classify_msgs and generate_replies (src/models/agent.py).
The store and generator calls are modelled by their outcomes: the claimed
batch, the per-item results in batch order, and the update result. A stage
cycle is summarised by the list of store mutations it performs, in order,
plus its returned boolean; a cycle that raises is modelled as none.
-/

/-- A store mutation performed by a stage cycle. -/
inductive StageAction
  | update (msgs : List AppMsg)
  | release (msgs : List AppMsg)
  deriving DecidableEq, Repr

/-- Assignment msg.classification performed in the classify loop. -/
def set_classification (m : AppMsg) (c : MsgClassification) : AppMsg :=
  { m with classification := some c }

/-- Assignment msg.reply_body performed in the reply loop. -/
def set_reply_body (m : AppMsg) (s : String) : AppMsg :=
  { m with reply_body := some s }

/-- classify_msgs from src/models/agent.py lines 10 to 47: an empty claim
is a successful no-op; messages whose classification failed are skipped;
when no message classified successfully the cycle returns failure without
any store mutation, so no release happens; otherwise it updates the
classified messages, then releases every originally claimed message, and
returns the update result. -/
def classify_msgs (locked : List AppMsg) (classifications : List (Option MsgClassification))
    (update_ok : Bool) : List StageAction × Bool :=
  if locked.isEmpty then ([], true)
  else
    let msgs_to_upsert := (locked.zip classifications).filterMap
      (fun p => p.2.map (set_classification p.1))
    if msgs_to_upsert.isEmpty then ([], false)
    else ([StageAction.update msgs_to_upsert, StageAction.release locked], update_ok)

/-- generate_replies from src/models/agent.py lines 49 to 96: an empty
claim is a successful no-op; empty thread or reply gather results return
failure without mutation; taking the last element of an empty thread
raises, modelled as none; messages without a generated reply are skipped;
when no reply was generated the cycle returns failure without mutation, so
no release happens; otherwise it updates the thread-tail messages, releases
every originally claimed message, and returns the update result. -/
def generate_replies (locked : List AppMsg) (msg_threads : List (List AppMsg))
    (replies : List (Option String)) (update_ok : Bool) :
    Option (List StageAction × Bool) :=
  if locked.isEmpty then some ([], true)
  else if msg_threads.isEmpty then some ([], false)
  else if replies.isEmpty then some ([], false)
  else
    match msg_threads.mapM List.getLast? with
    | none => none
    | some msgs =>
        let msgs_to_update := (msgs.zip replies).filterMap
          (fun p => p.2.map (set_reply_body p.1))
        if msgs_to_update.isEmpty then some ([], false)
        else some ([StageAction.update msgs, StageAction.release locked], update_ok)

/-!
Concrete fixtures used by counterexamples and witnesses.
-/

/-- An unlocked inbound row with a subject, pending classification. -/
def rowM1 : Row :=
  { msg_id := ("m1"), created_at := some 100, sender := some ("alice"),
    is_receiver_me := some true, subject := some ("Hello"), body := some ("hi") }

/-- The same row locked at time 0. -/
def rowLocked : Row :=
  { msg_id := ("m1"), created_at := some 100, sender := some ("alice"),
    is_receiver_me := some true, subject := some ("Hello"), body := some ("hi"),
    locked_at := some 0 }

/-- A minimal claimed message. -/
def msgM1 : AppMsg := { msg_id := some ("m1"), body := some ("hi") }

/-!
Helper lemmas about one execution of the atomic locking statement.
-/

/-- The locking statement never changes a msg_id. -/
theorem lock_map_msg_id (candIds : List String) (threshold now : Int) (r : Row) :
    (if hit_row candIds threshold r then { r with locked_at := some now } else r).msg_id
      = r.msg_id := by
  split <;> rfl

/-- Each candidate returned by one locking statement corresponds to a row
of the snapshot that the statement just hit. -/
theorem mem_run_locking_out {α : Type} {idOf : α → String} {cands : List α}
    {lt now : Int} {db : Db} {c : α}
    (hc : c ∈ (run_locking_query idOf cands lt now db).2) :
    c ∈ cands ∧ ∃ r ∈ db, hit_row (cands.map idOf) (now - lt) r = true ∧ r.msg_id = idOf c := by
  simp only [run_locking_query, List.mem_filter, decide_eq_true_eq, List.mem_map] at hc
  obtain ⟨hcc, r, hrf, hid⟩ := hc
  exact ⟨hcc, r, hrf.1, hrf.2, hid⟩

/-- Each row of the table after one locking statement is the image of a
snapshot row under the conditional lock write. -/
theorem mem_run_locking_db_rev {α : Type} {idOf : α → String} {cands : List α}
    {lt now : Int} {db : Db} {s : Row}
    (hs : s ∈ (run_locking_query idOf cands lt now db).1) :
    ∃ r ∈ db,
      s = if hit_row (cands.map idOf) (now - lt) r then { r with locked_at := some now }
          else r := by
  simp only [run_locking_query, List.mem_map] at hs
  obtain ⟨r, hr, he⟩ := hs
  exact ⟨r, hr, he.symm⟩

/-- A snapshot row hit by the locking statement appears locked at the claim
timestamp in the resulting table. -/
theorem locked_row_mem {α : Type} (idOf : α → String) (cands : List α) (lt now : Int)
    (db : Db) (r : Row) (hr : r ∈ db)
    (hhit : hit_row (cands.map idOf) (now - lt) r = true) :
    { r with locked_at := some now } ∈ (run_locking_query idOf cands lt now db).1 := by
  simp only [run_locking_query]
  exact List.mem_map.mpr ⟨r, hr, by simp [hhit]⟩

/-- Claim C1: mutual exclusion of claims. Two claim calls run as two atomic
statements against the store in some serial order; whenever the second runs
within one lock-timeout window of the first (now2 at most now1 plus the
lock timeout of the second call, so the locks taken by the first are still
live), no message identity is returned by both calls, for any two candidate
predicates over a table with unique msg_id values. -/
theorem claim_mutual_exclusion {α β : Type} (idOf1 : α → String) (idOf2 : β → String)
    (pred1 : Db → List α) (pred2 : Db → List β) (lt1 lt2 now1 now2 : Int) (db : Db)
    (hnodup : (db.map Row.msg_id).Nodup)
    (hwin : now2 ≤ now1 + lt2) :
    ∀ a ∈ (with_pipe_lock idOf1 pred1 lt1 now1 db).2,
      ∀ b ∈ (with_pipe_lock idOf2 pred2 lt2 now2 (with_pipe_lock idOf1 pred1 lt1 now1 db).1).2,
        idOf1 a ≠ idOf2 b := by
  intro a ha b hb heq
  simp only [with_pipe_lock] at ha hb
  obtain ⟨-, r, hrdb, hhit1, hrid⟩ := mem_run_locking_out ha
  obtain ⟨-, s, hsdb1, hhit2, hsid⟩ := mem_run_locking_out hb
  obtain ⟨r0, hr0db, hs_eq⟩ := mem_run_locking_db_rev hsdb1
  have hs_id0 : s.msg_id = r0.msg_id := by
    rw [hs_eq]
    exact lock_map_msg_id _ _ _ _
  have hr0r : r0 = r := by
    refine List.inj_on_of_nodup_map hnodup hr0db hrdb ?_
    rw [← hs_id0, hsid, ← heq, hrid]
  have hs_val : s = { r with locked_at := some now1 } := by
    rw [hs_eq, hr0r, if_pos hhit1]
  have helig : lock_eligible (now2 - lt2) s = true := by
    rw [hit_row, Bool.and_eq_true] at hhit2
    exact hhit2.2
  rw [hs_val] at helig
  simp only [lock_eligible, decide_eq_true_eq] at helig
  omega

/-- Witness for claim C1 at a concrete input: a second claim five seconds
after a first claim with a ten second lock timeout shares no identity with
it (the second claim is in fact empty). -/
theorem claim_mutual_exclusion_witness :
    (([rowM1] : Db).map Row.msg_id).Nodup ∧ (5 : Int) ≤ 0 + 10
  ∧ ∀ a ∈ (with_pipe_lock ClassifyCand.msg_id allCandidates 10 0 [rowM1]).2,
      ∀ b ∈ (with_pipe_lock ClassifyCand.msg_id allCandidates 10 5
          (with_pipe_lock ClassifyCand.msg_id allCandidates 10 0 [rowM1]).1).2,
        ClassifyCand.msg_id a ≠ ClassifyCand.msg_id b :=
  ⟨by decide, by decide,
   claim_mutual_exclusion ClassifyCand.msg_id ClassifyCand.msg_id allCandidates allCandidates
     10 10 0 5 [rowM1] (by decide) (by decide)⟩

/-- Counterexample to claim C2 as stated: a message locked at time 0 with a
lock timeout of 10 is not reclaimed by a matching claim at time 10, even
though 10 is at least 0 plus the lock timeout; the claim returns nothing
and the lock is unchanged, because the lock condition is strict. -/
theorem timeout_boundary_not_reclaimable :
    rowLocked.locked_at = some 0
  ∧ (0 : Int) + 10 ≤ 10
  ∧ rowLocked.msg_id ∈ (allCandidates [rowLocked]).map ClassifyCand.msg_id
  ∧ (with_pipe_lock ClassifyCand.msg_id allCandidates 10 10 [rowLocked]).2 = []
  ∧ (with_pipe_lock ClassifyCand.msg_id allCandidates 10 10 [rowLocked]).1 = [rowLocked] :=
  ⟨rfl, by decide, by decide, by decide, by decide⟩

/-- Claim C2 amended: a message locked at time T and never touched again is
reclaimed by any claim attempt whose candidate predicate matches it at any
time strictly greater than T plus the lock timeout (not at the boundary
itself, since the lock condition is a strict comparison): the claim locks
the row at the new timestamp and returns the message. -/
theorem timeout_reclaim_strict {α : Type} (idOf : α → String) (pred : Db → List α)
    (lt now T : Int) (db : Db) (r : Row)
    (hr : r ∈ db) (hT : r.locked_at = some T)
    (hcand : r.msg_id ∈ (pred db).map idOf)
    (hnow : T + lt < now) :
    (∃ c ∈ (with_pipe_lock idOf pred lt now db).2, idOf c = r.msg_id)
  ∧ ∃ s ∈ (with_pipe_lock idOf pred lt now db).1,
      s.msg_id = r.msg_id ∧ s.locked_at = some now := by
  have helig : lock_eligible (now - lt) r = true := by
    simp only [lock_eligible, hT, decide_eq_true_eq]
    omega
  have hhit : hit_row ((pred db).map idOf) (now - lt) r = true := by
    rw [hit_row, Bool.and_eq_true]
    exact ⟨decide_eq_true hcand, helig⟩
  obtain ⟨c0, hc0, hc0id⟩ := List.mem_map.mp hcand
  have hupd : r.msg_id ∈ (db.filter (hit_row ((pred db).map idOf) (now - lt))).map Row.msg_id :=
    List.mem_map_of_mem Row.msg_id (List.mem_filter.mpr ⟨hr, hhit⟩)
  constructor
  · refine ⟨c0, ?_, hc0id⟩
    simp only [with_pipe_lock, run_locking_query, List.mem_filter]
    refine ⟨hc0, decide_eq_true ?_⟩
    rw [hc0id]
    exact hupd
  · exact ⟨{ r with locked_at := some now },
      locked_row_mem idOf (pred db) lt now db r hr hhit, rfl, rfl⟩

/-- Witness for the amended claim C2 at a concrete input: the same locked
row is reclaimed and returned by a claim one second past the timeout
boundary. -/
theorem timeout_reclaim_strict_witness :
    (rowLocked ∈ ([rowLocked] : Db) ∧ rowLocked.locked_at = some 0
      ∧ rowLocked.msg_id ∈ (allCandidates [rowLocked]).map ClassifyCand.msg_id
      ∧ (0 : Int) + 10 < 11)
  ∧ (∃ c ∈ (with_pipe_lock ClassifyCand.msg_id allCandidates 10 11 [rowLocked]).2,
       ClassifyCand.msg_id c = rowLocked.msg_id)
  ∧ ∃ s ∈ (with_pipe_lock ClassifyCand.msg_id allCandidates 10 11 [rowLocked]).1,
      s.msg_id = rowLocked.msg_id ∧ s.locked_at = some 11 :=
  ⟨⟨by decide, rfl, by decide, by decide⟩,
   (timeout_reclaim_strict ClassifyCand.msg_id allCandidates 10 11 0 [rowLocked] rowLocked
     (by decide) rfl (by decide) (by decide)).1,
   (timeout_reclaim_strict ClassifyCand.msg_id allCandidates 10 11 0 [rowLocked] rowLocked
     (by decide) rfl (by decide) (by decide)).2⟩

/-- Counterexample to claim C3 as stated: a candidate predicate query that
fails validation (here one not beginning with the word with) makes the
wrapped claim call raise ValueError to the caller instead of returning an
empty list, because validate_query runs before the try block. -/
theorem malformed_query_raises :
    with_pipe_lock_wrapper ClassifyCand.msg_id ("select 1") allCandidates false 10 11 [rowM1]
      = Except.error ("Query must begin with with")
  ∧ with_pipe_lock_wrapper ClassifyCand.msg_id ("select 1") allCandidates false 10 11 [rowM1]
      ≠ Except.ok ([rowM1], []) := by
  refine ⟨rfl, fun h => ?_⟩
  have he : (Except.error ("Query must begin with with") : Except String (Db × List ClassifyCand))
      = Except.ok ([rowM1], []) := h
  exact Except.noConfusion he

/-- Claim C3 amended: a query string rejected by validate_query makes the
call raise (propagate the error) without touching the store; a store
failure during the locking statement itself is caught and yields the empty
list with the table unchanged; and on the success path every returned
message has its row locked at the claim timestamp, so a message is never
returned without its lock. -/
theorem claim_fail_safe {α : Type} (idOf : α → String) (q : String) (qok : List Char)
    (pred : Db → List α) (lt now : Int) (db : Db) :
    (∀ e, validate_query q = Except.error e →
       ∀ sf, with_pipe_lock_wrapper idOf q pred sf lt now db = Except.error e)
  ∧ (validate_query q = Except.ok qok →
       with_pipe_lock_wrapper idOf q pred true lt now db = Except.ok (db, []))
  ∧ ∀ c ∈ (with_pipe_lock idOf pred lt now db).2,
      ∃ s ∈ (with_pipe_lock idOf pred lt now db).1,
        s.msg_id = idOf c ∧ s.locked_at = some now := by
  refine ⟨?_, ?_, ?_⟩
  · intro e he sf
    simp only [with_pipe_lock_wrapper, he]
  · intro hok
    simp only [with_pipe_lock_wrapper, hok, if_pos]
  · intro c hc
    simp only [with_pipe_lock] at hc ⊢
    obtain ⟨-, r, hrdb, hhit, hrid⟩ := mem_run_locking_out hc
    refine ⟨{ r with locked_at := some now },
      locked_row_mem idOf (pred db) lt now db r hrdb hhit, hrid, rfl⟩

/-- Witness for the amended claim C3 at concrete inputs: a rejected query
raises, a store failure on a valid query returns the empty list, and a
successful claim locks the row of the message it returns. -/
theorem claim_fail_safe_witness :
    with_pipe_lock_wrapper ClassifyCand.msg_id ("select 1") allCandidates true 10 11 [rowM1]
      = Except.error ("Query must begin with with")
  ∧ with_pipe_lock_wrapper ClassifyCand.msg_id ("with msgs as (select 1)") allCandidates
      true 10 11 [rowM1] = Except.ok ([rowM1], [])
  ∧ ∀ c ∈ (with_pipe_lock ClassifyCand.msg_id allCandidates 10 11 [rowM1]).2,
      ∃ s ∈ (with_pipe_lock ClassifyCand.msg_id allCandidates 10 11 [rowM1]).1,
        s.msg_id = ClassifyCand.msg_id c ∧ s.locked_at = some 11 :=
  ⟨(claim_fail_safe ClassifyCand.msg_id ("select 1") [] allCandidates 10 11 [rowM1]).1
     _ rfl true,
   (claim_fail_safe ClassifyCand.msg_id ("with msgs as (select 1)")
     (lowerChars ("with msgs as (select 1)")) allCandidates 10 11 [rowM1]).2.1 rfl,
   (claim_fail_safe ClassifyCand.msg_id ("x") [] allCandidates 10 11 [rowM1]).2.2⟩

/-- Property of a message returned by the classify claim: it carries
exactly the two columns of the stage candidate query, msg_id and body,
copied from the stored row, and every other field is absent. -/
def carries_only_classify_columns (r : Row) (m : AppMsg) : Prop :=
  m.msg_id = some r.msg_id ∧ m.body = r.body ∧ m.created_at = none ∧ m.source = none
  ∧ m.sender = none ∧ m.receiver = none ∧ m.is_receiver_me = none ∧ m.subject = none
  ∧ m.meta = none ∧ m.classification = none ∧ m.reply_body = none ∧ m.reply_id = none
  ∧ m.summary = none ∧ m.images = none ∧ m.post_id = none

/-- Counterexample to claim C4 as stated: a stored row with a subject is
claimed by the classify stage, but the returned message does not carry the
stored subject — the claim returns only the columns selected by the stage
candidate query, not the full row contents. -/
theorem returned_msg_drops_subject :
    (get_locked_msgs_to_classify [] 100 0 10 50 [rowM1]).2
      = [{ msg_id := some ("m1"), body := some ("hi") }]
  ∧ rowM1.subject = some ("Hello")
  ∧ ∀ m ∈ (get_locked_msgs_to_classify [] 100 0 10 50 [rowM1]).2,
      m.subject ≠ rowM1.subject :=
  ⟨by decide, rfl, by decide⟩

/-- Claim C4 amended: every message returned by the classify claim carries
exactly the columns named in the stage candidate query (msg_id and body),
copied from its stored row as of lock time; every other field of the
returned message is absent rather than the stored value. -/
theorem claim_returns_selected_columns (ex : List MsgClassification) (lim : Nat)
    (cutoff lt now : Int) (db : Db) :
    ∀ m ∈ (get_locked_msgs_to_classify ex lim cutoff lt now db).2,
      ∃ r ∈ db, carries_only_classify_columns r m := by
  intro m hm
  simp only [get_locked_msgs_to_classify, List.mem_map] at hm
  obtain ⟨c, hc, hcm⟩ := hm
  obtain ⟨hc_cand, -⟩ := mem_run_locking_out hc
  simp only [classify_candidates, List.mem_map] at hc_cand
  obtain ⟨r, hr, hrc⟩ := hc_cand
  have hrdb : r ∈ db := by
    have h1 := List.take_subset _ _ hr
    have h2 := (List.perm_insertionSort _ _).mem_iff.mp h1
    exact (List.mem_filter.mp h2).1
  refine ⟨r, hrdb, ?_⟩
  rw [← hcm, ← hrc]
  exact ⟨rfl, rfl, rfl, rfl, rfl, rfl, rfl, rfl, rfl, rfl, rfl, rfl, rfl, rfl, rfl⟩

/-- Witness for the amended claim C4 at a concrete input: the message
returned for the stored row carries its msg_id and body and nothing else. -/
theorem claim_returns_selected_columns_witness :
    ({ msg_id := some ("m1"), body := some ("hi") } : AppMsg)
      ∈ (get_locked_msgs_to_classify [] 100 0 10 50 [rowM1]).2
  ∧ ∃ r ∈ ([rowM1] : Db),
      carries_only_classify_columns r { msg_id := some ("m1"), body := some ("hi") } :=
  ⟨by decide, claim_returns_selected_columns [] 100 0 10 50 [rowM1] _ (by decide)⟩

/-- Counterexample to claim C8 as stated: a classify cycle that claims a
non-empty batch in which every item fails performs no store mutation at
all — in particular no release of the claimed messages — and returns
failure, leaving the locks to timeout-based reclaim. -/
theorem all_failed_cycle_skips_release :
    classify_msgs [msgM1] [none] true = ([], false)
  ∧ ([msgM1] : List AppMsg) ≠ []
  ∧ StageAction.release [msgM1] ∉ (classify_msgs [msgM1] [none] true).1 :=
  ⟨by decide, by decide, by decide⟩

/-- Claim C8 amended: in a stage cycle that claimed a non-empty batch,
release of all originally claimed messages (including the failed ones) is
invoked only when the cycle reaches its write-back. For classify that is
exactly when at least one item classified successfully; in a cycle where
every item fails the stage returns failure without releasing. For
reply-generate, release happens only when every thread fetch produced a
non-empty thread and at least one reply was generated; when any fetched
thread is empty, taking its last element raises before the release call
even if another reply succeeded (the cycle outcome is none: no mutation,
no release). In every non-releasing case the locks are left to
timeout-based reclaim. -/
theorem stage_release_amended (locked : List AppMsg) (cls : List (Option MsgClassification))
    (threads : List (List AppMsg)) (reps : List (Option String))
    (msgs : List AppMsg) (ok : Bool) (hne : locked ≠ []) :
    ((∃ p ∈ locked.zip cls, p.2 ≠ none) →
        StageAction.release locked ∈ (classify_msgs locked cls ok).1)
  ∧ ((∀ p ∈ locked.zip cls, p.2 = none) → classify_msgs locked cls ok = ([], false))
  ∧ (threads ≠ [] → reps ≠ [] → threads.mapM List.getLast? = some msgs →
      (∃ p ∈ msgs.zip reps, p.2 ≠ none) →
      generate_replies locked threads reps ok
        = some ([StageAction.update msgs, StageAction.release locked], ok))
  ∧ (threads ≠ [] → reps ≠ [] → threads.mapM List.getLast? = none →
      generate_replies locked threads reps ok = none) := by
  have hle : locked.isEmpty = false := by
    cases locked with
    | nil => exact absurd rfl hne
    | cons a as => rfl
  refine ⟨?_, ?_, ?_, ?_⟩
  · rintro ⟨p, hp, hpn⟩
    have hfm : (locked.zip cls).filterMap (fun p => p.2.map (set_classification p.1)) ≠ [] := by
      intro hnil
      rw [List.filterMap_eq_nil_iff] at hnil
      have := hnil p hp
      rw [Option.map_eq_none'] at this
      exact hpn this
    simp only [classify_msgs, hle, Bool.false_eq_true, if_false,
      List.isEmpty_eq_true, hfm, if_false]
    exact List.mem_cons_of_mem _ (List.mem_singleton.mpr rfl)
  · intro hall
    have hfm : (locked.zip cls).filterMap (fun p => p.2.map (set_classification p.1)) = [] := by
      rw [List.filterMap_eq_nil_iff]
      intro p hp
      rw [Option.map_eq_none']
      exact hall p hp
    simp only [classify_msgs, hle, Bool.false_eq_true, if_false, hfm,
      List.isEmpty_nil, if_true]
  · intro hth hrp hmap hex
    have hthe : threads.isEmpty = false := by
      cases threads with
      | nil => exact absurd rfl hth
      | cons a as => rfl
    have hrpe : reps.isEmpty = false := by
      cases reps with
      | nil => exact absurd rfl hrp
      | cons a as => rfl
    obtain ⟨p, hp, hpn⟩ := hex
    have hfm : (msgs.zip reps).filterMap (fun p => p.2.map (set_reply_body p.1)) ≠ [] := by
      intro hnil
      rw [List.filterMap_eq_nil_iff] at hnil
      have := hnil p hp
      rw [Option.map_eq_none'] at this
      exact hpn this
    simp only [generate_replies, hle, hthe, hrpe, Bool.false_eq_true, if_false, hmap,
      List.isEmpty_eq_true, hfm, if_false]
  · intro hth hrp hmap
    have hthe : threads.isEmpty = false := by
      cases threads with
      | nil => exact absurd rfl hth
      | cons a as => rfl
    have hrpe : reps.isEmpty = false := by
      cases reps with
      | nil => exact absurd rfl hrp
      | cons a as => rfl
    simp only [generate_replies, hle, hthe, hrpe, Bool.false_eq_true, if_false, hmap]

/-- Witness for the amended claim C8 at concrete inputs: a cycle with one
successful classification releases the claimed batch, an all-failed cycle
returns failure with no actions, a reply cycle with one generated reply
updates and then releases, and a reply cycle where one thread fetch came
back empty raises (outcome none, so no release) even though the other
reply succeeded. -/
theorem stage_release_amended_witness :
    StageAction.release [msgM1] ∈ (classify_msgs [msgM1] [some MsgClassification.spam] true).1
  ∧ classify_msgs [msgM1] [none] true = ([], false)
  ∧ generate_replies [msgM1] [[msgM1]] [some ("ok")] true
      = some ([StageAction.update [msgM1], StageAction.release [msgM1]], true)
  ∧ generate_replies [msgM1, msgM1] [[], [msgM1]] [none, some ("ok")] true = none :=
  ⟨(stage_release_amended [msgM1] [some MsgClassification.spam] [] [] [] true (by decide)).1
     ⟨(msgM1, some MsgClassification.spam), by decide, by decide⟩,
   (stage_release_amended [msgM1] [none] [] [] [] true (by decide)).2.1 (by decide),
   (stage_release_amended [msgM1] [] [[msgM1]] [some ("ok")] [msgM1] true (by decide)).2.2.1
     (by decide) (by decide) (by decide) ⟨(msgM1, some ("ok")), by decide, by decide⟩,
   (stage_release_amended [msgM1, msgM1] [] [[], [msgM1]] [none, some ("ok")] [] true
     (by decide)).2.2.2 (by decide) (by decide) (by decide)⟩

/-- Property of the updated row against the original: every field absent on
the message keeps its stored value, and msg_id and locked_at are never
written at all. -/
def preserves_absent_fields (m : AppMsg) (r r2 : Row) : Prop :=
  r2.msg_id = r.msg_id ∧ r2.locked_at = r.locked_at
  ∧ (m.created_at = none → r2.created_at = r.created_at)
  ∧ (m.source = none → r2.source = r.source)
  ∧ (m.sender = none → r2.sender = r.sender)
  ∧ (m.receiver = none → r2.receiver = r.receiver)
  ∧ (m.is_receiver_me = none → r2.is_receiver_me = r.is_receiver_me)
  ∧ (m.subject = none → r2.subject = r.subject)
  ∧ (m.body = none → r2.body = r.body)
  ∧ (m.meta = none → r2.meta = r.meta)
  ∧ (m.classification = none → r2.classification = r.classification)
  ∧ (m.reply_body = none → r2.reply_body = r.reply_body)
  ∧ (m.reply_id = none → r2.reply_id = r.reply_id)
  ∧ (m.summary = none → r2.summary = r.summary)
  ∧ (m.images = none → r2.images = r.images)
  ∧ (m.post_id = none → r2.post_id = r.post_id)

/-- An isSome projection that is false forces the option to be none. -/
theorem eq_none_of_isSome_eq_false {α : Type} {o : Option α} (h : o.isSome = false) :
    o = none := by
  cases o with
  | none => rfl
  | some v => simp at h

/-- A message with no update field leaves any row unchanged. -/
theorem apply_update_id (m : AppMsg) (r : Row) (h : has_update_fields m = false) :
    apply_update m r = r := by
  rw [has_update_fields] at h
  simp only [Bool.or_eq_false_iff] at h
  obtain ⟨⟨⟨⟨⟨⟨⟨⟨⟨⟨⟨⟨⟨h1, h2⟩, h3⟩, h4⟩, h5⟩, h6⟩, h7⟩, h8⟩, h9⟩, h10⟩, h11⟩, h12⟩, h13⟩,
    h14⟩ := h
  simp only [apply_update, setIfPresent,
    eq_none_of_isSome_eq_false h1, eq_none_of_isSome_eq_false h2,
    eq_none_of_isSome_eq_false h3, eq_none_of_isSome_eq_false h4,
    eq_none_of_isSome_eq_false h5, eq_none_of_isSome_eq_false h6,
    eq_none_of_isSome_eq_false h7, eq_none_of_isSome_eq_false h8,
    eq_none_of_isSome_eq_false h9, eq_none_of_isSome_eq_false h10,
    eq_none_of_isSome_eq_false h11, eq_none_of_isSome_eq_false h12,
    eq_none_of_isSome_eq_false h13, eq_none_of_isSome_eq_false h14]

/-- Claim C9: partial-update non-destructiveness. Updating through
update_msgs rewrites only the row whose msg_id matches, replacing it by
apply_update, and apply_update preserves every field that is absent on the
message; rows with a different msg_id are untouched. Hence an update whose
only present non-identity field is X leaves every stored field other than
X unchanged. -/
theorem update_partial_nondestructive (db : Db) (m : AppMsg) (r : Row) (hr : r ∈ db) :
    (m.msg_id = some r.msg_id → apply_update m r ∈ update_msgs db [m])
  ∧ (m.msg_id ≠ some r.msg_id → r ∈ update_msgs db [m])
  ∧ preserves_absent_fields m r (apply_update m r) := by
  have hpres : preserves_absent_fields m r (apply_update m r) := by
    refine ⟨rfl, rfl, ?_, ?_, ?_, ?_, ?_, ?_, ?_, ?_, ?_, ?_, ?_, ?_, ?_, ?_⟩ <;>
      (intro h; simp only [apply_update, setIfPresent, h])
  refine ⟨?_, ?_, hpres⟩
  · intro hid
    simp only [update_msgs, List.foldl, update_one]
    by_cases hf : has_update_fields m
    · rw [if_pos hf]
      exact List.mem_map.mpr ⟨r, hr, by simp [hid]⟩
    · rw [if_neg hf]
      rw [apply_update_id m r (Bool.eq_false_iff.mpr hf)]
      exact hr
  · intro hid
    simp only [update_msgs, List.foldl, update_one]
    by_cases hf : has_update_fields m
    · rw [if_pos hf]
      exact List.mem_map.mpr ⟨r, hr, by simp [hid]⟩
    · rw [if_neg hf]
      exact hr

/-- A message carrying only a classification besides its identity, used as
a concrete partial update. -/
def updSpam : AppMsg := { msg_id := some ("m1"), classification := some MsgClassification.spam }

/-- Witness for claim C9 at a concrete input: updating the stored row with
a message that only sets classification rewrites the row through
apply_update and preserves every absent field. -/
theorem update_partial_nondestructive_witness :
    rowM1 ∈ ([rowM1] : Db)
  ∧ (updSpam.msg_id = some rowM1.msg_id →
      apply_update updSpam rowM1 ∈ update_msgs [rowM1] [updSpam])
  ∧ (updSpam.msg_id ≠ some rowM1.msg_id → rowM1 ∈ update_msgs [rowM1] [updSpam])
  ∧ preserves_absent_fields updSpam rowM1 (apply_update updSpam rowM1) :=
  ⟨by decide,
   (update_partial_nondestructive [rowM1] updSpam rowM1 (by decide)).1,
   (update_partial_nondestructive [rowM1] updSpam rowM1 (by decide)).2.1,
   (update_partial_nondestructive [rowM1] updSpam rowM1 (by decide)).2.2⟩

/-- Claim C10: multi_pass only ever returns spam, instruction, inquiry,
other, illegal, banned, boring, story, or none (undetermined); it never
returns safe or interesting although both are candidate labels of its
binary sub-classifications. -/
theorem classifier_output_range (r0 r1 : List (Option String)) :
    multi_pass r0 r1 ≠ some MsgClassification.safe
  ∧ multi_pass r0 r1 ≠ some MsgClassification.interesting
  ∧ multi_pass r0 r1 ∈ [none, some MsgClassification.spam, some MsgClassification.instruction,
      some MsgClassification.inquiry, some MsgClassification.other,
      some MsgClassification.illegal, some MsgClassification.banned,
      some MsgClassification.boring, some MsgClassification.story] := by
  unfold multi_pass pass_1
  split_ifs <;> simp

end Oso
